import Mathlib

set_option maxRecDepth 100000

/-!
Verification of the email-provider-loops controller core against its
natural-language specification.

The Go sources are shallowly embedded:
- raw request bodies, headers and secrets are byte lists (`List Nat`, each
  entry a byte value), matching Go strings / `[]byte`;
- `crypto/sha256`, `crypto/hmac` and `encoding/base64` are implemented
  executably over `Nat` arithmetic (words are reduced mod 2^32 explicitly);
- the declarative store is an explicit state value threaded through the
  webhook handler; outcomes of store and remote-provider calls that can fail
  in Go are injected as explicit parameters;
- the two reconcilers are pure functions from the observed object plus the
  injected remote-call outcomes to a trace of remote calls, a trace of store
  operations, the resulting status and the escalated error, mirroring the
  control flow of the Go `Reconcile` methods.
-/

/-! ## Bytes and byte-string helpers -/

/-- Bytes of a string, one `Nat` per character code point.  The Go sources
only ever build signed content from header values and bodies; for the ASCII
range used throughout this development this coincides with Go's `[]byte`. -/
def strBytes (s : String) : List Nat :=
  s.data.map Char.toNat

/-- Split a byte list on a separator byte, mirroring Go `strings.Split`:
the result always has at least one (possibly empty) element. -/
def splitOnByte (b : Nat) : List Nat → List (List Nat)
  | [] => [[]]
  | x :: xs =>
    let r := splitOnByte b xs
    if x = b then [] :: r
    else
      match r with
      | h :: t => (x :: h) :: t
      | [] => [[x]]

/-- Boolean prefix test on byte lists. -/
def hasPrefixB : List Nat → List Nat → Bool
  | [], _ => true
  | _ :: _, [] => false
  | a :: as, b :: bs => a == b && hasPrefixB as bs

/-- Substring occurrence test, mirroring Go `strings.Contains`:
`containsSeq needle hay` is true iff `needle` occurs contiguously in `hay`
(the empty needle occurs everywhere). -/
def containsSeq (needle : List Nat) : List Nat → Bool
  | [] => hasPrefixB needle []
  | x :: xs => hasPrefixB needle (x :: xs) || containsSeq needle xs

/-! ## Base64 (standard encoding, as in Go `encoding/base64.StdEncoding`) -/

/-- Character (byte value) of a 6-bit group in the standard base64 alphabet. -/
def b64Char (n : Nat) : Nat :=
  if n < 26 then 65 + n
  else if n < 52 then 97 + (n - 26)
  else if n < 62 then 48 + (n - 52)
  else if n = 62 then 43
  else 47

/-- Value of a standard-alphabet base64 character, `none` for anything else. -/
def b64Val (c : Nat) : Option Nat :=
  if 65 ≤ c ∧ c ≤ 90 then some (c - 65)
  else if 97 ≤ c ∧ c ≤ 122 then some (c - 71)
  else if 48 ≤ c ∧ c ≤ 57 then some (c + 4)
  else if c = 43 then some 62
  else if c = 47 then some 63
  else none

/-- Standard base64 encoding of a byte list, with `=` padding. -/
def base64Encode : List Nat → List Nat
  | [] => []
  | [a] => [b64Char (a >>> 2), b64Char ((a % 4) <<< 4), 61, 61]
  | [a, b] =>
    [b64Char (a >>> 2), b64Char (((a % 4) <<< 4) ||| (b >>> 4)),
     b64Char ((b % 16) <<< 2), 61]
  | a :: b :: c :: rest =>
    b64Char (a >>> 2) :: b64Char (((a % 4) <<< 4) ||| (b >>> 4)) ::
    b64Char (((b % 16) <<< 2) ||| (c >>> 6)) :: b64Char (c % 64) ::
    base64Encode rest

/-- Standard base64 decoding: input must be a padded multiple of four bytes
over the standard alphabet, otherwise `none` (Go's `DecodeString` error). -/
def base64Decode : List Nat → Option (List Nat)
  | [] => some []
  | a :: b :: c :: d :: rest =>
    match b64Val a, b64Val b with
    | some va, some vb =>
      if c = 61 ∧ d = 61 ∧ rest = [] then
        some [(va <<< 2) ||| (vb >>> 4)]
      else
        match b64Val c with
        | some vc =>
          if d = 61 ∧ rest = [] then
            some [(va <<< 2) ||| (vb >>> 4), ((vb % 16) <<< 4) ||| (vc >>> 2)]
          else
            match b64Val d with
            | some vd =>
              (base64Decode rest).map
                (fun r =>
                  ((va <<< 2) ||| (vb >>> 4)) ::
                  (((vb % 16) <<< 4) ||| (vc >>> 2)) ::
                  (((vc % 4) <<< 6) ||| vd) :: r)
            | none => none
        | none => none
    | _, _ => none
  | _ => none

/-! ## SHA-256 and HMAC-SHA256 (crypto/sha256, crypto/hmac) -/

/-- Reduce to a 32-bit word. -/
def w32 (n : Nat) : Nat := n % 4294967296

/-- Right rotation of a 32-bit word. -/
def rotr32 (x n : Nat) : Nat := w32 ((x >>> n) ||| (x <<< (32 - n)))

def shaCh (x y z : Nat) : Nat := (x &&& y) ^^^ ((x ^^^ 4294967295) &&& z)

def shaMaj (x y z : Nat) : Nat := (x &&& y) ^^^ (x &&& z) ^^^ (y &&& z)

def bigSigma0 (x : Nat) : Nat := rotr32 x 2 ^^^ rotr32 x 13 ^^^ rotr32 x 22

def bigSigma1 (x : Nat) : Nat := rotr32 x 6 ^^^ rotr32 x 11 ^^^ rotr32 x 25

def smallSigma0 (x : Nat) : Nat := rotr32 x 7 ^^^ rotr32 x 18 ^^^ (x >>> 3)

def smallSigma1 (x : Nat) : Nat := rotr32 x 17 ^^^ rotr32 x 19 ^^^ (x >>> 10)

/-- The 64 SHA-256 round constants. -/
def shaK : List Nat :=
  [1116352408, 1899447441, 3049323471, 3921009573,
   961987163, 1508970993, 2453635748, 2870763221,
   3624381080, 310598401, 607225278, 1426881987,
   1925078388, 2162078206, 2614888103, 3248222580,
   3835390401, 4022224774, 264347078, 604807628,
   770255983, 1249150122, 1555081692, 1996064986,
   2554220882, 2821834349, 2952996808, 3210313671,
   3336571891, 3584528711, 113926993, 338241895,
   666307205, 773529912, 1294757372, 1396182291,
   1695183700, 1986661051, 2177026350, 2456956037,
   2730485921, 2820302411, 3259730800, 3345764771,
   3516065817, 3600352804, 4094571909, 275423344,
   430227734, 506948616, 659060556, 883997877,
   958139571, 1322822218, 1537002063, 1747873779,
   1955562222, 2024104815, 2227730452, 2361852424,
   2428436474, 2756734187, 3204031479, 3329325298]

/-- The SHA-256 initial hash value. -/
def shaH0 : List Nat :=
  [1779033703, 3144134277, 1013904242, 2773480762,
   1359893119, 2600822924, 528734635, 1541459225]

/-- SHA-256 padding: append `128`, zeros, and the 64-bit big-endian bit
length, so that the total length becomes a multiple of 64 bytes. -/
def sha256Pad (msg : List Nat) : List Nat :=
  let len := msg.length
  let bitLen := len * 8
  let padZeros := (55 + 64 - len % 64) % 64
  msg ++ 128 :: List.replicate padZeros 0 ++
    (List.range 8).map (fun i => (bitLen >>> (56 - 8 * i)) % 256)

/-- Big-endian 32-bit words of a byte list. -/
def toWords : List Nat → List Nat
  | a :: b :: c :: d :: rest =>
    ((a <<< 24) ||| (b <<< 16) ||| (c <<< 8) ||| d) :: toWords rest
  | _ => []

/-- Extend the 16-word message schedule by `fuel` additional words. -/
def extendW (ws : List Nat) : Nat → List Nat
  | 0 => ws
  | n + 1 =>
    let i := ws.length
    let wNew := w32 (smallSigma1 (ws.getD (i - 2) 0) + ws.getD (i - 7) 0 +
      smallSigma0 (ws.getD (i - 15) 0) + ws.getD (i - 16) 0)
    extendW (ws ++ [wNew]) n

/-- Working state of the SHA-256 compression function. -/
structure Sha8 where
  a : Nat
  b : Nat
  c : Nat
  d : Nat
  e : Nat
  f : Nat
  g : Nat
  h : Nat

/-- One round of the SHA-256 compression function. -/
def shaRound (st : Sha8) (k w : Nat) : Sha8 :=
  let t1 := w32 (st.h + bigSigma1 st.e + shaCh st.e st.f st.g + k + w)
  let t2 := w32 (bigSigma0 st.a + shaMaj st.a st.b st.c)
  ⟨w32 (t1 + t2), st.a, st.b, st.c, w32 (st.d + t1), st.e, st.f, st.g⟩

/-- Process one 64-byte block, updating the eight-word hash state. -/
def shaBlock (hv : List Nat) (block : List Nat) : List Nat :=
  let ws := extendW (toWords block) 48
  let st0 : Sha8 :=
    ⟨hv.getD 0 0, hv.getD 1 0, hv.getD 2 0, hv.getD 3 0,
     hv.getD 4 0, hv.getD 5 0, hv.getD 6 0, hv.getD 7 0⟩
  let st := (shaK.zip ws).foldl (fun s kw => shaRound s kw.1 kw.2) st0
  [w32 (hv.getD 0 0 + st.a), w32 (hv.getD 1 0 + st.b),
   w32 (hv.getD 2 0 + st.c), w32 (hv.getD 3 0 + st.d),
   w32 (hv.getD 4 0 + st.e), w32 (hv.getD 5 0 + st.f),
   w32 (hv.getD 6 0 + st.g), w32 (hv.getD 7 0 + st.h)]

/-- Split a byte list into 64-byte chunks; the first argument is fuel that
structurally bounds the recursion (so the definition reduces by evaluation). -/
def chunks64Aux : Nat → List Nat → List (List Nat)
  | 0, _ => []
  | _, [] => []
  | fuel + 1, x :: xs => (x :: xs.take 63) :: chunks64Aux fuel (xs.drop 63)

/-- Split a byte list into 64-byte chunks. -/
def chunks64 (l : List Nat) : List (List Nat) :=
  chunks64Aux l.length l

/-- SHA-256 digest (32 bytes) of a byte list. -/
def sha256 (msg : List Nat) : List Nat :=
  let hv := (chunks64 (sha256Pad msg)).foldl shaBlock shaH0
  (hv.map (fun w => [(w >>> 24) % 256, (w >>> 16) % 256, (w >>> 8) % 256, w % 256])).flatten

/-- HMAC-SHA256 of a message under a key, as in Go `crypto/hmac` with
`sha256.New` (block size 64 bytes). -/
def hmacSha256 (key msg : List Nat) : List Nat :=
  let k0 := if 64 < key.length then sha256 key else key
  let kPad := k0 ++ List.replicate (64 - k0.length) 0
  let ipad := kPad.map (fun b => b ^^^ 54)
  let opad := kPad.map (fun b => b ^^^ 92)
  sha256 (opad ++ sha256 (ipad ++ msg))

/-! ## Webhook verifier (src/internal/webhook/http.go, verifyWebhook) -/

/-- Outcome of webhook verification; the error cases correspond to the four
`WebhookVerificationError` codes of the Go source. -/
inductive VerifyResult
  | ok
  | missingHeaders
  | invalidSecretFormat
  | invalidSecretEncoding
  | invalidSignature
deriving DecidableEq

/-- Embedding of `verifyWebhook` (src/internal/webhook/http.go:72-134).
`eventID`, `timestamp` and `webhookSignature` are the raw values of the
`webhook-id`, `webhook-timestamp` and `webhook-signature` headers, `body` the
raw request body, `secret` the configured signing secret; all as byte lists.
Byte 46 is the dot, 95 the underscore, 32 the space, 44 the comma. -/
def verifyWebhook (eventID timestamp webhookSignature body secret : List Nat) :
    VerifyResult :=
  if eventID = [] ∨ timestamp = [] ∨ webhookSignature = [] then
    .missingHeaders
  else
    let signedContent := eventID ++ 46 :: timestamp ++ 46 :: body
    match splitOnByte 95 secret with
    | _ :: p1 :: _ =>
      match base64Decode p1 with
      | none => .invalidSecretEncoding
      | some secretBytes =>
        let signature := base64Encode (hmacSha256 secretBytes signedContent)
        if (splitOnByte 32 webhookSignature).any
            (fun sig => containsSeq (44 :: signature) sig) then
          .ok
        else
          .invalidSignature
    | _ => .invalidSecretFormat

/-- Decoded secret material: the base64 decoding of the part of the secret
between the first and second underscore (the part Go indexes as `parts[1]`);
`none` when the secret is malformed or undecodable. -/
def secretKeyBytes (secret : List Nat) : Option (List Nat) :=
  match splitOnByte 95 secret with
  | _ :: p1 :: _ => base64Decode p1
  | _ => none

/-- Acceptance criterion exactly as claim C2 words it: the signature header,
split on spaces into version,digest tokens, contains a token whose digest
suffix (the part after the first comma) equals exactly the base64-encoded
HMAC-SHA256, keyed with the decoded secret, of eventID.timestamp.body.
This is the spec-side definition that the code is compared against. -/
def claimDigestSuffixAccepts (eventID timestamp webhookSignature body key : List Nat) :
    Bool :=
  let signature :=
    base64Encode (hmacSha256 key (eventID ++ 46 :: timestamp ++ 46 :: body))
  (splitOnByte 32 webhookSignature).any fun tok =>
    match tok.dropWhile (fun x => x != 44) with
    | [] => false
    | _ :: digest => digest == signature

/-- Acceptance criterion of the amended claim C2: some space-separated token
of the signature header contains, as a substring, a comma immediately
followed by the base64-encoded HMAC-SHA256 of eventID.timestamp.body. -/
def claimSubstringAccepts (eventID timestamp webhookSignature body key : List Nat) :
    Bool :=
  let signature :=
    base64Encode (hmacSha256 key (eventID ++ 46 :: timestamp ++ 46 :: body))
  (splitOnByte 32 webhookSignature).any fun tok =>
    containsSeq (44 :: signature) tok

/-! ## Data model (go.miloapis.com/milo notification/v1alpha1, as used here)

`LastTransitionTime` is omitted from conditions: `meta.SetStatusCondition`
refreshes it only when the boolean status flips, in which case the condition
already differs structurally, so the field never affects any equality the
code tests (the `DeepEqual` checks before status patches). -/

/-- A status condition (metav1.Condition), keyed by `type`. -/
structure Condition where
  type : String
  status : String
  reason : String
  message : String
  observedGeneration : Nat
deriving DecidableEq

/-- metav1.ConditionTrue. -/
def conditionTrue : String := "True"

/-- metav1.ConditionFalse. -/
def conditionFalse : String := "False"

/-- A provider entry of a status or of a ContactGroup spec ({name, ID}). -/
structure ProviderStatus where
  name : String
  id : String
deriving DecidableEq

/-- Status shape shared by Contact and ContactGroupMembership. -/
structure ContactStatus where
  conditions : List Condition
  providers : List ProviderStatus
deriving DecidableEq

/-- A Contact record (identity, spec, status). -/
structure Contact where
  name : String
  ns : String
  uid : String
  generation : Nat
  email : String
  givenName : String
  familyName : String
  status : ContactStatus
deriving DecidableEq

/-- A ContactGroup record; `providers` is its `spec.providers` list. -/
structure ContactGroup where
  name : String
  ns : String
  providers : List ProviderStatus
deriving DecidableEq

/-- A name+namespace reference to a Contact. -/
structure ContactReference where
  name : String
  ns : String
deriving DecidableEq

/-- A name+namespace reference to a ContactGroup. -/
structure ContactGroupReference where
  name : String
  ns : String
deriving DecidableEq

/-- Spec of a ContactGroupMembership: the two references. -/
structure ContactGroupMembershipSpec where
  contactRef : ContactReference
  contactGroupRef : ContactGroupReference
deriving DecidableEq

/-- A ContactGroupMembership record. -/
structure ContactGroupMembership where
  name : String
  ns : String
  generation : Nat
  spec : ContactGroupMembershipSpec
  status : ContactStatus
deriving DecidableEq

/-- A ContactGroupMembershipRemoval tombstone record. -/
structure ContactGroupMembershipRemoval where
  name : String
  ns : String
  spec : ContactGroupMembershipSpec
deriving DecidableEq

/-- The part of the declarative store the webhook handler reads and writes.
`nextSuffix` models the API server's unique-suffix source for `GenerateName`
creations: each create consumes a fresh suffix, so generated names are
pairwise distinct and creation never fails with AlreadyExists. -/
structure Store where
  memberships : List ContactGroupMembership
  removals : List ContactGroupMembershipRemoval
  nextSuffix : Nat
deriving DecidableEq

/-! ## meta.FindStatusCondition / meta.SetStatusCondition -/

/-- k8s.io/apimachinery `meta.FindStatusCondition`: first condition with the
given type, if any. -/
def findStatusCondition (conds : List Condition) (t : String) : Option Condition :=
  conds.find? fun c => c.type == t

/-- k8s.io/apimachinery `meta.SetStatusCondition`: replace the first
condition of the new condition's type, or append if none exists. -/
def setStatusCondition (conds : List Condition) (newCond : Condition) :
    List Condition :=
  match conds with
  | [] => [newCond]
  | c :: rest =>
    if c.type = newCond.type then newCond :: rest
    else c :: setStatusCondition rest newCond

/-! ## Webhook ingestion handler (src/cmd/manager/command.go, webhook part)

The functions below embed the handler body of
`NewLoopsContactGroupMembershipWebhookV1` from the point where the Contact
and ContactGroup have been resolved (the claims quantify over resolvable
contact/group pairs), together with its store helpers.  Store operations go
against a `Store` value; transport failures of the store client, which in Go
surface as non-nil errors, are injected through a `Faults` record. -/

/-- Error kinds of the k8s store client the handler branches on. -/
inductive KErr
  | alreadyExists
  | notFound
  | internalError (msg : String)
deriving DecidableEq

/-- Injected outcomes for the store calls a single handler invocation can
make; `none` means the call succeeds. -/
structure Faults where
  listRemoval : Option KErr
  deleteRemoval : Option KErr
  createMembership : Option KErr
  createRemoval : Option KErr
deriving DecidableEq

/-- All store calls succeed. -/
def noFaults : Faults := ⟨none, none, none, none⟩

/-- Embedding of `buildGroupMembershipRemovalIndexKey`
(src/internal/webhook/http.go:142-144): the composite index key joins the
four reference fields with a dash. -/
def buildGroupMembershipRemovalIndexKey (contactRef : ContactReference)
    (groupRef : ContactGroupReference) : String :=
  contactRef.name ++ "-" ++ contactRef.ns ++ "-" ++
    groupRef.name ++ "-" ++ groupRef.ns

/-- The membership spec the handler builds for a resolved (contact, group)
pair: references carrying the two objects' names and namespaces. -/
def pairSpec (contact : Contact) (group : ContactGroup) :
    ContactGroupMembershipSpec :=
  ⟨⟨contact.name, contact.ns⟩, ⟨group.name, group.ns⟩⟩

/-- Whether a removal's composite index key equals the key built from the
resolved contact and group (this is the condition the index lookup tests). -/
def removalKeyMatches (contact : Contact) (group : ContactGroup)
    (r : ContactGroupMembershipRemoval) : Bool :=
  buildGroupMembershipRemovalIndexKey r.spec.contactRef r.spec.contactGroupRef ==
    buildGroupMembershipRemovalIndexKey ⟨contact.name, contact.ns⟩
      ⟨group.name, group.ns⟩

/-- Embedding of `getContactGroupMembershipRemoval`: list the removals whose
composite index key matches the pair's key and take the first in stored
order (`none` when there is no match). -/
def getContactGroupMembershipRemoval (s : Store) (contact : Contact)
    (group : ContactGroup) : Option ContactGroupMembershipRemoval :=
  (s.removals.filter (removalKeyMatches contact group)).head?

/-- Embedding of `createContactGroupMembership`: create a membership in the
group's namespace with `GenerateName` prefix `group.name ++ "-" ++
contact.name`; the API server materialises a fresh unique name. -/
def createContactGroupMembership (s : Store) (contact : Contact)
    (group : ContactGroup) : Store :=
  let m : ContactGroupMembership :=
    ⟨group.name ++ "-" ++ contact.name ++ toString s.nextSuffix, group.ns, 0,
     pairSpec contact group, ⟨[], []⟩⟩
  { s with memberships := s.memberships ++ [m], nextSuffix := s.nextSuffix + 1 }

/-- Embedding of `deleteContactGroupMembershipRemoval`: delete by name and
namespace. -/
def deleteContactGroupMembershipRemoval (s : Store)
    (removal : ContactGroupMembershipRemoval) : Store :=
  { s with removals :=
      s.removals.filter fun x => !(x.name == removal.name && x.ns == removal.ns) }

/-- Embedding of `createContactGroupMembershipRemoval`: create a tombstone in
the group's namespace with the same `GenerateName` prefix. -/
def createContactGroupMembershipRemoval (s : Store) (contact : Contact)
    (group : ContactGroup) : Store :=
  let r : ContactGroupMembershipRemoval :=
    ⟨group.name ++ "-" ++ contact.name ++ toString s.nextSuffix, group.ns,
     pairSpec contact group⟩
  { s with removals := s.removals ++ [r], nextSuffix := s.nextSuffix + 1 }

/-- Result of one handler invocation: the store afterwards and the HTTP
status code of the response. -/
structure HandlerOut where
  store : Store
  httpStatus : Nat
deriving DecidableEq

/-- Embedding of the subscribed-event branch of the webhook handler
(src/cmd/manager/command.go:309-339): look up a removal tombstone for the
pair (a lookup error other than not-found is 500); delete it when present
(any delete error is 500); then create the membership, treating
AlreadyExists as success and any other create error as 500; respond 200. -/
def handleSubscribedEvent (f : Faults) (contact : Contact) (group : ContactGroup)
    (s : Store) : HandlerOut :=
  let createStep : Store → HandlerOut := fun s1 =>
    match f.createMembership with
    | some KErr.alreadyExists => ⟨s1, 200⟩
    | some _ => ⟨s1, 500⟩
    | none => ⟨createContactGroupMembership s1 contact group, 200⟩
  let afterLookup : Option ContactGroupMembershipRemoval → HandlerOut :=
    fun removal =>
    match removal with
    | some r =>
      match f.deleteRemoval with
      | some _ => ⟨s, 500⟩
      | none => createStep (deleteContactGroupMembershipRemoval s r)
    | none => createStep s
  match f.listRemoval with
  | some KErr.notFound => afterLookup none
  | some _ => ⟨s, 500⟩
  | none => afterLookup (getContactGroupMembershipRemoval s contact group)

/-- Embedding of the unsubscribed-event branch of the webhook handler
(src/cmd/manager/command.go:342-364): look up a removal tombstone for the
pair (a lookup error other than not-found is 500); when present, do nothing
and respond 200; when absent, create the tombstone (any create error is 500)
and respond 200. -/
def handleUnsubscribedEvent (f : Faults) (contact : Contact) (group : ContactGroup)
    (s : Store) : HandlerOut :=
  let afterLookup : Option ContactGroupMembershipRemoval → HandlerOut :=
    fun removal =>
    match removal with
    | some _ => ⟨s, 200⟩
    | none =>
      match f.createRemoval with
      | some _ => ⟨s, 500⟩
      | none => ⟨createContactGroupMembershipRemoval s contact group, 200⟩
  match f.listRemoval with
  | some KErr.notFound => afterLookup none
  | some _ => ⟨s, 500⟩
  | none => afterLookup (getContactGroupMembershipRemoval s contact group)

/-- The memberships of a store whose spec references exactly the given
(contact, group) pair. -/
def membershipsForPair (s : Store) (contact : Contact) (group : ContactGroup) :
    List ContactGroupMembership :=
  s.memberships.filter fun m => m.spec == pairSpec contact group

/-- The removal tombstones of a store whose spec references exactly the given
(contact, group) pair. -/
def removalsForPair (s : Store) (contact : Contact) (group : ContactGroup) :
    List ContactGroupMembershipRemoval :=
  s.removals.filter fun r => r.spec == pairSpec contact group

/-! ## Remote provider client errors (src/pkg/loops) -/

/-- An error from the Loops client: either an HTTP error response
(`loops.Error{StatusCode, Body}`) or a transport/decode failure. -/
inductive LoopsErr
  | apiErr (statusCode : Nat) (body : String)
  | transport (msg : String)
deriving DecidableEq

/-- The `Error()` string of a Loops client error. -/
def LoopsErr.message : LoopsErr → String
  | .apiErr statusCode body =>
    "api request failed with status " ++ toString statusCode ++ ": " ++ body
  | .transport msg => msg

/-- Embedding of `loops.IsBadRequest`: an HTTP 400 error response. -/
def IsBadRequest : LoopsErr → Bool
  | .apiErr statusCode _ => statusCode == 400
  | .transport _ => false

/-- Embedding of `loops.IsNotFound`: an HTTP 404 error response. -/
def IsNotFound : LoopsErr → Bool
  | .apiErr statusCode _ => statusCode == 404
  | .transport _ => false

/-- Message text of a store-client error, used in condition messages. -/
def KErr.message : KErr → String
  | .alreadyExists => "already exists"
  | .notFound => "not found"
  | .internalError msg => msg

/-! ## Reconciler effect traces -/

/-- One outbound call to the remote provider. -/
inductive RemoteCall
  | upsertContact (email userID firstName lastName source : String) (subscribed : Bool)
  | deleteContact (userID : String)
  | addToMailingList (userID listID : String)
  | removeFromMailingList (userID listID : String)
deriving DecidableEq

/-- One write against the declarative store issued by a reconciler. -/
inductive StoreOp
  | patchContactStatus (st : ContactStatus)
  | patchMembershipStatus (st : ContactStatus)
  | createMembership (ns name : String) (spec : ContactGroupMembershipSpec)
deriving DecidableEq

/-- Whether a store operation is a status patch. -/
def StoreOp.isStatusPatch : StoreOp → Bool
  | .patchContactStatus _ => true
  | .patchMembershipStatus _ => true
  | .createMembership _ _ _ => false

/-- Result of one reconciler invocation: the remote calls made, the store
writes issued, the status value the object ends the invocation with, and the
error escalated to the control loop (`none` on success). -/
structure ReconcileOut where
  calls : List RemoteCall
  storeOps : List StoreOp
  status : ContactStatus
  err : Option String
deriving DecidableEq

/-- Embedding of `util.PatchStatusIfChanged` (src/internal/util/status.go):
issue a status patch iff the status differs structurally from the one read
at the start of reconciliation. -/
def patchStatusIfChanged (oldStatus newStatus : ContactStatus)
    (mk : ContactStatus → StoreOp) : List StoreOp :=
  if oldStatus = newStatus then [] else [mk newStatus]

/-! ## Contact reconciler (src/internal/webhook/http.go, controller part) -/

def loopsContactReadyCondition : String := "LoopsContactReady"

def loopsContactNotCreatedReason : String := "ContactNotCreated"

def loopsContactCreatedReason : String := "ContactCreated"

def loopsContactUpdatedReason : String := "ContactUpdated"

def loopsContactNotUpdatedReason : String := "ContactNotUpdated"

def newsLetterAddedCondition : String := "NewsLetterAdded"

def newsLetterAddedReason : String := "NewsLetterAdded"

def newsLetterNotAddedReason : String := "NewsLetterNotAdded"

/-- The upsert call `LoopsContactController.upsertContact` makes for a
contact (the remote user ID is the contact's own UID). -/
def upsertCallOf (contact : Contact) : RemoteCall :=
  .upsertContact contact.email contact.uid contact.givenName contact.familyName
    "email-provider-loops-k8s-controller" true

/-- Outcome of the condition-driven switch of `LoopsContactController.Reconcile`
(lines 440-514): the remote calls made, the status after the switch, and the
error escalated by an early return (in which case Go returns before touching
the status further, so `status` is the unchanged input status). -/
structure ConvergeOut where
  calls : List RemoteCall
  status : ContactStatus
  earlyErr : Option String
deriving DecidableEq

/-- Embedding of the switch of `LoopsContactController.Reconcile`.
`upsertResult` is the outcome of the remote upsert if one is made (`none`
for success).  First creation (no Ready condition, or reason NotCreated):
bad-request is softened into a NotCreated/False condition, any other error
returns early, success sets Created/True and records provider Loops with the
contact's UID.  Update (observed generation differs): bad-request becomes
NotUpdated/False, any other error returns early, success sets Updated/True.
Otherwise: no remote call, status untouched. -/
def contactConvergeStatus (upsertResult : Option LoopsErr) (contact : Contact) :
    ConvergeOut :=
  let setReady : String → String → String → List Condition := fun flag reason msg =>
    setStatusCondition contact.status.conditions
      ⟨loopsContactReadyCondition, flag, reason, msg, contact.generation⟩
  let creation : ConvergeOut :=
    match upsertResult with
    | some e =>
      if IsBadRequest e then
        ⟨[upsertCallOf contact],
         ⟨setReady conditionFalse loopsContactNotCreatedReason
            ("Loops contact not created on email provider: failed to find Loops contact: " ++
              e.message),
          contact.status.providers⟩,
         none⟩
      else
        ⟨[upsertCallOf contact], contact.status,
         some ("failed to create Loops contact: failed to find Loops contact: " ++
           e.message)⟩
    | none =>
      ⟨[upsertCallOf contact],
       ⟨setReady conditionTrue loopsContactCreatedReason
          "Loops contact created on email provider",
        [⟨"Loops", contact.uid⟩]⟩,
       none⟩
  match findStatusCondition contact.status.conditions loopsContactReadyCondition with
  | none => creation
  | some readyCond =>
    if readyCond.reason = loopsContactNotCreatedReason then creation
    else if readyCond.observedGeneration ≠ contact.generation then
      match upsertResult with
      | some e =>
        if IsBadRequest e then
          ⟨[upsertCallOf contact],
           ⟨setReady conditionFalse loopsContactNotUpdatedReason
              ("Loops contact not updated on email provider: failed to find Loops contact: " ++
                e.message),
            contact.status.providers⟩,
           none⟩
        else
          ⟨[upsertCallOf contact], contact.status,
           some ("failed to update Loops contact: failed to find Loops contact: " ++
             e.message)⟩
      | none =>
        ⟨[upsertCallOf contact],
         ⟨setReady conditionTrue loopsContactUpdatedReason
            "Loops contact updated on email provider",
          contact.status.providers⟩,
         none⟩
    else ⟨[], contact.status, none⟩

/-- Hex digit character (lowercase) of a value below 16. -/
def hexDigitChar (d : Nat) : Char :=
  Char.ofNat (if d < 10 then 48 + d else 87 + d)

/-- Lowercase hex rendering of a byte list, as Go fmt %x. -/
def hexString (bs : List Nat) : String :=
  String.mk ((bs.map fun b => [hexDigitChar (b >>> 4), hexDigitChar (b % 16)]).flatten)

/-- Embedding of `generateCgmName`: the contact's name joined with the full
hex SHA-256 of its UID. -/
def generateCgmName (contact : Contact) : String :=
  contact.name ++ "-" ++ hexString (sha256 (strBytes contact.uid))

/-- Embedding of `isNewsletterContact`: the name carries the newsletter
convention prefix. -/
def isNewsletterContact (contact : Contact) : Bool :=
  contact.name.startsWith "newsletter-"

/-- Embedding of `addToNewsLetterList`.  `createResult` is the store's answer
to the membership create if one is attempted (`none` for success); `ngName`
and `ngNs` are the configured newsletter group name and namespace.  Returns
the updated status, the store writes, and the boolean error flag the Go
function returns (true forces a reconciliation error). -/
def addToNewsLetterList (createResult : Option KErr) (ngName ngNs : String)
    (contact : Contact) (st : ContactStatus) :
    ContactStatus × List StoreOp × Bool :=
  let op := StoreOp.createMembership contact.ns (generateCgmName contact)
    ⟨⟨contact.name, contact.ns⟩, ⟨ngName, ngNs⟩⟩
  let setNl : String → String → String → ContactStatus := fun flag reason msg =>
    ⟨setStatusCondition st.conditions
       ⟨newsLetterAddedCondition, flag, reason, msg, contact.generation⟩,
     st.providers⟩
  let attempt : ContactStatus × List StoreOp × Bool :=
    match createResult with
    | some KErr.alreadyExists => (st, [op], false)
    | some e =>
      (setNl conditionFalse newsLetterNotAddedReason
         ("Contact not added to Newsletter list: " ++ e.message),
       [op], true)
    | none =>
      (setNl conditionTrue newsLetterAddedReason
         "Contact added to Newsletter list on email provider.",
       [op], false)
  match findStatusCondition st.conditions newsLetterAddedCondition with
  | some c => if c.status = conditionTrue then (st, [], false) else attempt
  | none => attempt

/-- Embedding of `LoopsContactController.Reconcile` after the finalizer
handling (the claims about this path assume no deletion is in progress):
run the condition-driven switch, then the newsletter side effect for
newsletter-prefixed contacts, then patch the status iff it changed, and
escalate a newsletter failure as the reconciliation error. -/
def contactReconcile (upsertResult : Option LoopsErr)
    (createNewsletterResult : Option KErr) (ngName ngNs : String)
    (contact : Contact) : ReconcileOut :=
  let conv := contactConvergeStatus upsertResult contact
  match conv.earlyErr with
  | some msg => ⟨conv.calls, [], contact.status, some msg⟩
  | none =>
    let afterNl :=
      if isNewsletterContact contact then
        addToNewsLetterList createNewsletterResult ngName ngNs contact conv.status
      else (conv.status, [], false)
    ⟨conv.calls,
     afterNl.2.1 ++ patchStatusIfChanged contact.status afterNl.1 StoreOp.patchContactStatus,
     afterNl.1,
     if afterNl.2.2 then some "failed to add mailing list to Loops contact" else none⟩

/-- Whether a contact is in the creation state of the switch (no Ready
condition yet, or its reason is NotCreated). -/
def contactIsCreationState (contact : Contact) : Bool :=
  match findStatusCondition contact.status.conditions loopsContactReadyCondition with
  | none => true
  | some c => c.reason == loopsContactNotCreatedReason

/-! ## ContactGroupMembership reconciler
(src/internal/contactgroupmembership_controller.go) -/

def loopsContactGroupMembershipReadyCondition : String :=
  "LoopsContactGroupMembershipReady"

def loopsContactGroupMembershipNotCreatedReason : String :=
  "ContactGroupMembershipNotCreated"

def loopsContactGroupMembershipCreatedReason : String :=
  "ContactGroupMembershipCreated"

/-- Embedding of `getMailingListId`: the ID of the first provider entry
named Loops in the group's spec, if any. -/
def getMailingListId (cg : ContactGroup) : Option String :=
  (cg.providers.find? fun p => p.name == "Loops").map (·.id)

/-- Whether a membership is in the creation state of the reconciler: Ready
condition absent or carrying the NotCreated reason. -/
def cgmIsCreationState (cgm : ContactGroupMembership) : Bool :=
  match findStatusCondition cgm.status.conditions
      loopsContactGroupMembershipReadyCondition with
  | none => true
  | some c => c.reason == loopsContactGroupMembershipNotCreatedReason

/-- The condition-driven creation step of
`LoopsContactGroupMembershipController.Reconcile`: when the Ready condition
is absent or carries the NotCreated reason, resolve the mailing-list ID and
call AddToMailingList; otherwise leave the status alone.  Returns the remote
calls made, the updated status and the error to escalate. -/
def cgmConvergeStatus (addResult : Option LoopsErr) (cgm : ContactGroupMembership)
    (contact : Contact) (group : ContactGroup) :
    List RemoteCall × ContactStatus × Option String :=
  let oldStatus := cgm.status
  if cgmIsCreationState cgm then
    let addOutcome : List RemoteCall × Option String :=
      match getMailingListId group with
      | none =>
        ([], some "failed to get Loops mailing list ID: mailing list ID not found for contact group")
      | some listID =>
        match addResult with
        | some e =>
          ([.addToMailingList contact.uid listID],
           some ("failed to add Loops contact to mailing list: " ++ e.message))
        | none => ([.addToMailingList contact.uid listID], none)
    let setCgmReady : String → String → String → List Condition :=
      fun flag reason msg =>
      setStatusCondition oldStatus.conditions
        ⟨loopsContactGroupMembershipReadyCondition, flag, reason, msg,
         cgm.generation⟩
    match addOutcome with
    | (cs, some msg) =>
      (cs,
       ⟨setCgmReady conditionFalse loopsContactGroupMembershipNotCreatedReason
          ("Loops contact group membership not created on email provider: " ++ msg),
        oldStatus.providers⟩,
       some msg)
    | (cs, none) =>
      (cs,
       ⟨setCgmReady conditionTrue loopsContactGroupMembershipCreatedReason
          "Loops contact group membership created on email provider",
        [⟨"Loops", contact.uid⟩]⟩,
       none)
  else ([], oldStatus, none)

/-- Embedding of `LoopsContactGroupMembershipController.Reconcile` after the
finalizer handling, with the referenced Contact and ContactGroup already
resolved.  `addResult` is the outcome of the remote AddToMailingList call if
one is made (`none` for success).  Creation state: resolve the mailing-list
ID (missing ID is itself a failure), call AddToMailingList; success sets
Created/True and records provider Loops with the contact's UID; ANY failure
sets NotCreated/False and is escalated as the reconciliation error.  The
status is patched iff it changed. -/
def contactGroupMembershipReconcile (addResult : Option LoopsErr)
    (cgm : ContactGroupMembership) (contact : Contact) (group : ContactGroup) :
    ReconcileOut :=
  let stepped := cgmConvergeStatus addResult cgm contact group
  ⟨stepped.1,
   patchStatusIfChanged cgm.status stepped.2.1 StoreOp.patchMembershipStatus,
   stepped.2.1, stepped.2.2⟩

/-! ## Contact finalizer -/

/-- Result of a finalizer invocation: remote calls made and the error that
aborts finalization, if any. -/
structure FinalizeOut where
  calls : List RemoteCall
  err : Option String
deriving DecidableEq

/-- Embedding of `loopsContactFinalizer.DeleteContact`
(src/internal/webhook/http.go:579-594): always issue the remote delete;
not-found is treated as success, any other failure is an error. -/
def loopsContactFinalizerDeleteContact (deleteResult : Option LoopsErr)
    (contact : Contact) : FinalizeOut :=
  match deleteResult with
  | some e =>
    if IsNotFound e then ⟨[.deleteContact contact.uid], none⟩
    else
      ⟨[.deleteContact contact.uid],
       some ("failed to delete Loops contact: " ++ e.message)⟩
  | none => ⟨[.deleteContact contact.uid], none⟩

/-- Embedding of `loopsContactFinalizer.Finalize`
(src/internal/webhook/http.go:375-394): delegate to DeleteContact and wrap
any error, aborting the finalization. -/
def loopsContactFinalizerFinalize (deleteResult : Option LoopsErr)
    (contact : Contact) : FinalizeOut :=
  let d := loopsContactFinalizerDeleteContact deleteResult contact
  match d.err with
  | some m => ⟨d.calls, some ("failed to delete Loops contact: " ++ m)⟩
  | none => ⟨d.calls, none⟩

/-- Number of conditions of a given type in a conditions list. -/
def condTypeCount (conds : List Condition) (t : String) : Nat :=
  (conds.filter fun c => c.type == t).length

/-- Number of provider entries with a given name. -/
def providerNameCount (ps : List ProviderStatus) (n : String) : Nat :=
  (ps.filter fun p => p.name == n).length

/-! ## Concrete instances used by witnesses and counterexamples -/

/-- A resolvable contact with no status yet. -/
def exContact : Contact :=
  ⟨"alice", "default", "uid-1", 1, "a@example.com", "A", "B", ⟨[], []⟩⟩

/-- A resolvable group with a Loops provider entry. -/
def exGroup : ContactGroup := ⟨"team", "default", [⟨"Loops", "list-1"⟩]⟩

/-- A store with no memberships and no removal tombstones. -/
def emptyStore : Store := ⟨[], [], 0⟩

/-- A contact already converged for its current generation: Ready condition
with the Created reason and matching observed generation. -/
def exConvergedContact : Contact :=
  ⟨"bob", "default", "uid-9", 3, "b@example.com", "B", "C",
   ⟨[⟨loopsContactReadyCondition, conditionTrue, loopsContactCreatedReason,
      "Loops contact created on email provider", 3⟩],
    [⟨"Loops", "uid-9"⟩]⟩⟩

/-- A membership record with no status yet. -/
def exCgm : ContactGroupMembership :=
  ⟨"m1", "default", 1, ⟨⟨"alice", "default"⟩, ⟨"team", "default"⟩⟩, ⟨[], []⟩⟩

/-- Contact of the composite-key collision scenario: its (name, namespace)
is (x-a, b). -/
def collContact : Contact := ⟨"x-a", "b", "uid-2", 1, "", "", "", ⟨[], []⟩⟩

/-- Group of the composite-key collision scenario. -/
def collGroup : ContactGroup := ⟨"g", "n", [⟨"Loops", "list-2"⟩]⟩

/-- A removal tombstone for the DIFFERENT pair with contact (x, a-b): its
composite index key x-a-b-g-n coincides with that of `collContact` and
`collGroup`, because the key joins name fragments with a dash and the
fragments themselves may contain dashes. -/
def collOtherRemoval : ContactGroupMembershipRemoval :=
  ⟨"r0", "n", ⟨⟨"x", "a-b"⟩, ⟨"g", "n"⟩⟩⟩

/-- Store holding only the colliding other-pair tombstone. -/
def collStore : Store := ⟨[], [collOtherRemoval], 0⟩

/-- A removal tombstone for the (alice, team) pair. -/
def exRemoval : ContactGroupMembershipRemoval :=
  ⟨"r1", "default", ⟨⟨"alice", "default"⟩, ⟨"team", "default"⟩⟩⟩

/-- Store holding the (alice, team) tombstone. -/
def exRemovalStore : Store := ⟨[], [exRemoval], 5⟩

/-- Concrete HMAC key for webhook-verification instances. -/
def exKey : List Nat := strBytes "topsecretkey"

/-- Signing secret in the Loops `prefix_<base64>` form carrying `exKey`. -/
def exSecret : List Nat := strBytes "whsec_" ++ base64Encode exKey

/-- Concrete webhook-id header value. -/
def exEventID : List Nat := strBytes "evt1"

/-- Concrete webhook-timestamp header value. -/
def exTimestamp : List Nat := strBytes "1700000000"

/-- Concrete webhook body. -/
def exBody : List Nat := strBytes "{}"

/-- The correct base64 HMAC-SHA256 signature of the concrete instance. -/
def exSignature : List Nat :=
  base64Encode (hmacSha256 exKey (exEventID ++ 46 :: exTimestamp ++ 46 :: exBody))

/-- A well-formed signature header carrying exactly the correct digest. -/
def exGoodHeader : List Nat := strBytes "v1," ++ exSignature

/-- A signature header whose single token carries the correct digest followed
by a stray byte, so its digest suffix does NOT equal the correct digest. -/
def exPaddedHeader : List Nat := strBytes "v1," ++ exSignature ++ strBytes "A"

/-! ## Crypto test vectors -/

/-- FIPS 180-2 test vector: SHA-256 of the three-byte message abc. -/
theorem sha256_test_vector :
    sha256 (strBytes "abc") =
      [186, 120, 22, 191, 143, 1, 207, 234,
       65, 65, 64, 222, 93, 174, 34, 35,
       176, 3, 97, 163, 150, 23, 122, 156,
       180, 16, 255, 97, 242, 0, 21, 173] := by
  decide

/-- RFC 4231 test case 2 for HMAC-SHA256. -/
theorem hmacSha256_test_vector :
    hmacSha256 (strBytes "Jefe") (strBytes "what do ya want for nothing?") =
      [91, 220, 193, 70, 191, 96, 117, 78,
       106, 4, 36, 38, 8, 149, 117, 199,
       90, 0, 63, 8, 157, 39, 57, 131,
       157, 236, 88, 185, 100, 236, 56, 67] := by
  decide

/-! ## Supporting lemmas: conditions and counting -/

theorem findStatusCondition_set_self (conds : List Condition) (c : Condition) :
    findStatusCondition (setStatusCondition conds c) c.type = some c := by
  induction conds with
  | nil => simp [setStatusCondition, findStatusCondition]
  | cons x xs ih =>
    by_cases h : x.type = c.type
    · simp [setStatusCondition, findStatusCondition, h]
    · simp only [setStatusCondition, if_neg h, findStatusCondition, List.find?]
      have hb : (x.type == c.type) = false := by simp [h]
      rw [hb]
      exact ih

theorem findStatusCondition_set_other (conds : List Condition) (c : Condition)
    (t : String) (h : t ≠ c.type) :
    findStatusCondition (setStatusCondition conds c) t = findStatusCondition conds t := by
  have hb : (c.type == t) = false := by simp [Ne.symm h]
  induction conds with
  | nil => simp [setStatusCondition, findStatusCondition, List.find?, hb]
  | cons x xs ih =>
    by_cases hx : x.type = c.type
    · have hxb : (x.type == t) = false := by simp [hx, Ne.symm h]
      simp only [setStatusCondition, if_pos hx, findStatusCondition, List.find?, hb, hxb]
    · simp only [setStatusCondition, if_neg hx, findStatusCondition, List.find?]
      cases hxt : x.type == t with
      | true => rfl
      | false => exact ih

theorem condTypeCount_set_other (conds : List Condition) (c : Condition)
    (t : String) (h : t ≠ c.type) :
    condTypeCount (setStatusCondition conds c) t = condTypeCount conds t := by
  have hb : (c.type == t) = false := by simp [Ne.symm h]
  induction conds with
  | nil => simp [setStatusCondition, condTypeCount, hb]
  | cons x xs ih =>
    by_cases hx : x.type = c.type
    · have hxb : (x.type == t) = false := by simp [hx, Ne.symm h]
      simp [setStatusCondition, if_pos hx, condTypeCount, List.filter_cons, hb, hxb]
    · simp only [setStatusCondition, if_neg hx, condTypeCount, List.filter_cons] at ih ⊢
      cases hxt : x.type == t with
      | true => simpa [hxt] using ih
      | false => simpa [hxt] using ih

theorem condTypeCount_set_self (conds : List Condition) (c : Condition)
    (h : condTypeCount conds c.type ≤ 1) :
    condTypeCount (setStatusCondition conds c) c.type ≤ 1 := by
  induction conds with
  | nil => simp [setStatusCondition, condTypeCount]
  | cons x xs ih =>
    by_cases hx : x.type = c.type
    · simp only [condTypeCount, List.filter_cons, hx, beq_self_eq_true, if_pos,
        List.length_cons] at h
      simp only [setStatusCondition, if_pos hx, condTypeCount, List.filter_cons,
        beq_self_eq_true, if_pos, List.length_cons]
      omega
    · have hxb : (x.type == c.type) = false := by simp [hx]
      simp only [condTypeCount, List.filter_cons, hxb] at h
      simp only [setStatusCondition, if_neg hx, condTypeCount, List.filter_cons, hxb]
      simp only [Bool.false_eq_true, if_neg, not_false_iff] at h ⊢
      exact ih h

theorem condTypeCount_set_le_one (conds : List Condition) (c : Condition)
    (t : String) (h : condTypeCount conds t ≤ 1) :
    condTypeCount (setStatusCondition conds c) t ≤ 1 := by
  by_cases ht : t = c.type
  · subst ht
    exact condTypeCount_set_self conds c h
  · rw [condTypeCount_set_other conds c t ht]
    exact h

/-! ## Supporting lemmas: reconciler output shapes -/

theorem contactConvergeStatus_conditions_shape (u : Option LoopsErr) (contact : Contact) :
    (contactConvergeStatus u contact).status.conditions = contact.status.conditions ∨
    ∃ c, c.type = loopsContactReadyCondition ∧
      (contactConvergeStatus u contact).status.conditions =
        setStatusCondition contact.status.conditions c := by
  unfold contactConvergeStatus
  cases hf : findStatusCondition contact.status.conditions loopsContactReadyCondition with
  | none =>
    cases u with
    | none =>
      simp only [hf]
      exact Or.inr ⟨_, rfl, rfl⟩
    | some e =>
      by_cases hb : IsBadRequest e = true
      · simp only [hf, hb, if_pos]
        exact Or.inr ⟨_, rfl, rfl⟩
      · simp [hf, hb]
  | some rc =>
    by_cases hr : rc.reason = loopsContactNotCreatedReason
    · cases u with
      | none =>
        simp only [hf, hr, if_pos]
        exact Or.inr ⟨_, rfl, rfl⟩
      | some e =>
        by_cases hb : IsBadRequest e = true
        · simp only [hf, hr, hb, if_pos]
          exact Or.inr ⟨_, rfl, rfl⟩
        · simp [hf, hr, hb]
    · by_cases hg : rc.observedGeneration = contact.generation
      · simp [hf, hr, hg]
      · cases u with
        | none =>
          simp only [hf, if_neg hr]
          simp [hg]
          exact Or.inr ⟨_, rfl, rfl⟩
        | some e =>
          by_cases hb : IsBadRequest e = true
          · simp only [if_neg hr]
            simp only [hf, hb, if_pos]
            simp [hg]
            exact Or.inr ⟨_, rfl, rfl⟩
          · simp [hf, hr, hg, hb]

theorem contactConvergeStatus_providers_shape (u : Option LoopsErr) (contact : Contact) :
    (contactConvergeStatus u contact).status.providers = contact.status.providers ∨
    (contactConvergeStatus u contact).status.providers = [⟨"Loops", contact.uid⟩] := by
  unfold contactConvergeStatus
  cases hf : findStatusCondition contact.status.conditions loopsContactReadyCondition with
  | none =>
    cases u with
    | none => simp [hf]
    | some e =>
      by_cases hb : IsBadRequest e = true
      · simp [hf, hb]
      · simp [hf, hb]
  | some rc =>
    by_cases hr : rc.reason = loopsContactNotCreatedReason
    · cases u with
      | none => simp [hf, hr]
      | some e =>
        by_cases hb : IsBadRequest e = true
        · simp [hf, hr, hb]
        · simp [hf, hr, hb]
    · by_cases hg : rc.observedGeneration = contact.generation
      · simp [hf, hr, hg]
      · cases u with
        | none =>
          simp only [hf, if_neg hr]
          simp [hg]
        | some e =>
          by_cases hb : IsBadRequest e = true
          · simp only [hf, if_neg hr]
            simp [hg, hb]
          · simp [hf, hr, hg, hb]

theorem contactConvergeStatus_creation_success (contact : Contact)
    (hc : contactIsCreationState contact = true) :
    (contactConvergeStatus none contact).status.providers = [⟨"Loops", contact.uid⟩] ∧
    (contactConvergeStatus none contact).earlyErr = none := by
  unfold contactConvergeStatus
  unfold contactIsCreationState at hc
  cases hf : findStatusCondition contact.status.conditions loopsContactReadyCondition with
  | none => simp [hf]
  | some rc =>
    rw [hf] at hc
    simp only [beq_iff_eq] at hc
    simp [hf, hc]

theorem addToNewsLetterList_conditions_shape (r : Option KErr) (ngName ngNs : String)
    (contact : Contact) (st : ContactStatus) :
    (addToNewsLetterList r ngName ngNs contact st).1.conditions = st.conditions ∨
    ∃ c, c.type = newsLetterAddedCondition ∧
      (addToNewsLetterList r ngName ngNs contact st).1.conditions =
        setStatusCondition st.conditions c := by
  unfold addToNewsLetterList
  cases hf : findStatusCondition st.conditions newsLetterAddedCondition with
  | none =>
    cases r with
    | none =>
      simp only [hf]
      exact Or.inr ⟨_, rfl, rfl⟩
    | some e =>
      cases e with
      | alreadyExists => simp [hf]
      | notFound =>
        simp only [hf]
        exact Or.inr ⟨_, rfl, rfl⟩
      | internalError m =>
        simp only [hf]
        exact Or.inr ⟨_, rfl, rfl⟩
  | some c =>
    by_cases hs : c.status = conditionTrue
    · simp [hf, hs]
    · cases r with
      | none =>
        simp only [hf]
        simp only [if_neg hs]
        exact Or.inr ⟨_, rfl, rfl⟩
      | some e =>
        cases e with
        | alreadyExists => simp [hf, hs]
        | notFound =>
          simp only [hf]
          simp only [if_neg hs]
          exact Or.inr ⟨_, rfl, rfl⟩
        | internalError m =>
          simp only [hf]
          simp only [if_neg hs]
          exact Or.inr ⟨_, rfl, rfl⟩

theorem addToNewsLetterList_providers (r : Option KErr) (ngName ngNs : String)
    (contact : Contact) (st : ContactStatus) :
    (addToNewsLetterList r ngName ngNs contact st).1.providers = st.providers := by
  unfold addToNewsLetterList
  cases hf : findStatusCondition st.conditions newsLetterAddedCondition with
  | none =>
    cases r with
    | none => simp [hf]
    | some e => cases e <;> simp [hf]
  | some c =>
    by_cases hs : c.status = conditionTrue
    · simp [hf, hs]
    · cases r with
      | none => simp [hf, hs]
      | some e => cases e <;> simp [hf, hs]

theorem addToNewsLetterList_no_status_patch_ops (r : Option KErr) (ngName ngNs : String)
    (contact : Contact) (st : ContactStatus) :
    (addToNewsLetterList r ngName ngNs contact st).2.1.filter StoreOp.isStatusPatch = [] := by
  unfold addToNewsLetterList
  cases hf : findStatusCondition st.conditions newsLetterAddedCondition with
  | none =>
    cases r with
    | none => simp [hf, StoreOp.isStatusPatch]
    | some e => cases e <;> simp [hf, StoreOp.isStatusPatch]
  | some c =>
    by_cases hs : c.status = conditionTrue
    · simp [hf, hs]
    · cases r with
      | none => simp [hf, hs, StoreOp.isStatusPatch]
      | some e => cases e <;> simp [hf, hs, StoreOp.isStatusPatch]

/-! ## Claim theorems: webhook store semantics -/

/-- Claim C1 (code bug): the claim says two subscribed-event invocations for
the same resolvable (contact, group) pair, from a store with no membership
and no tombstone for the pair, leave exactly ONE ContactGroupMembership.  In
the code the membership is created with `GenerateName`, so the store
materialises a fresh name each time, creation never reports AlreadyExists,
and the second invocation creates a second membership: both invocations
return 200, and the store ends with TWO memberships (and zero tombstones)
for the pair. -/
theorem subscribed_twice_duplicates_membership :
    (handleSubscribedEvent noFaults exContact exGroup emptyStore).httpStatus = 200 ∧
    (handleSubscribedEvent noFaults exContact exGroup
      (handleSubscribedEvent noFaults exContact exGroup emptyStore).store).httpStatus = 200 ∧
    (membershipsForPair
      (handleSubscribedEvent noFaults exContact exGroup
        (handleSubscribedEvent noFaults exContact exGroup emptyStore).store).store
      exContact exGroup).length = 2 ∧
    (removalsForPair
      (handleSubscribedEvent noFaults exContact exGroup
        (handleSubscribedEvent noFaults exContact exGroup emptyStore).store).store
      exContact exGroup).length = 0 := by
  decide

/-- Claim C4, counterexample: the store `collStore` holds no removal
tombstone (and no membership) for the pair (collContact, collGroup), yet two
unsubscribed-event invocations for that pair leave ZERO removal records for
it, not one: the store holds a tombstone for the different pair
(contact x in namespace a-b) whose dash-joined composite index key collides
with that of (contact x-a in namespace b), so both invocations take the
tombstone-already-present no-op path. -/
theorem unsubscribed_twice_collision_no_tombstone_for_pair :
    (removalsForPair collStore collContact collGroup).length = 0 ∧
    (membershipsForPair collStore collContact collGroup).length = 0 ∧
    (handleUnsubscribedEvent noFaults collContact collGroup collStore).httpStatus = 200 ∧
    (handleUnsubscribedEvent noFaults collContact collGroup
      (handleUnsubscribedEvent noFaults collContact collGroup collStore).store).httpStatus = 200 ∧
    (removalsForPair
      (handleUnsubscribedEvent noFaults collContact collGroup
        (handleUnsubscribedEvent noFaults collContact collGroup collStore).store).store
      collContact collGroup).length = 0 := by
  decide

/-- Claim C4 (amended): for every resolvable (contact, group) pair and store
holding no removal whose COMPOSITE INDEX KEY equals the pair's key
(strengthened from: no removal for that pair), two unsubscribed-event
invocations both respond 200, leave exactly one removal record for the pair,
create no ContactGroupMembership, and the second invocation is a no-op on
the store. -/
theorem unsubscribed_twice_idempotent (contact : Contact) (group : ContactGroup)
    (s : Store)
    (h : s.removals.filter (removalKeyMatches contact group) = []) :
    (handleUnsubscribedEvent noFaults contact group s).httpStatus = 200 ∧
    (handleUnsubscribedEvent noFaults contact group
      (handleUnsubscribedEvent noFaults contact group s).store).httpStatus = 200 ∧
    (removalsForPair
      (handleUnsubscribedEvent noFaults contact group
        (handleUnsubscribedEvent noFaults contact group s).store).store
      contact group).length = 1 ∧
    (handleUnsubscribedEvent noFaults contact group
      (handleUnsubscribedEvent noFaults contact group s).store).store.memberships =
      s.memberships ∧
    (handleUnsubscribedEvent noFaults contact group
      (handleUnsubscribedEvent noFaults contact group s).store).store =
      (handleUnsubscribedEvent noFaults contact group s).store := by
  have hl1 : getContactGroupMembershipRemoval s contact group = none := by
    unfold getContactGroupMembershipRemoval
    rw [h]
    rfl
  have hu1 : handleUnsubscribedEvent noFaults contact group s =
      ⟨createContactGroupMembershipRemoval s contact group, 200⟩ := by
    unfold handleUnsubscribedEvent noFaults
    simp [hl1]
  have hkeyNew : removalKeyMatches contact group
      ⟨group.name ++ "-" ++ contact.name ++ toString s.nextSuffix, group.ns,
       pairSpec contact group⟩ = true := by
    simp [removalKeyMatches, pairSpec]
  have hl2 : getContactGroupMembershipRemoval
      (createContactGroupMembershipRemoval s contact group) contact group =
      some ⟨group.name ++ "-" ++ contact.name ++ toString s.nextSuffix, group.ns,
        pairSpec contact group⟩ := by
    unfold getContactGroupMembershipRemoval createContactGroupMembershipRemoval
    simp [List.filter_append, h, List.filter_cons, hkeyNew]
  have hu2 : handleUnsubscribedEvent noFaults contact group
      (createContactGroupMembershipRemoval s contact group) =
      ⟨createContactGroupMembershipRemoval s contact group, 200⟩ := by
    unfold handleUnsubscribedEvent noFaults
    simp [hl2]
  have hspec : s.removals.filter
      (fun r => r.spec == pairSpec contact group) = [] := by
    rw [List.filter_eq_nil_iff]
    intro r hr hcontra
    have hk := List.filter_eq_nil_iff.mp h r hr
    apply hk
    have heq : r.spec = pairSpec contact group := by
      simpa using hcontra
    simp [removalKeyMatches, heq, pairSpec]
  refine ⟨by rw [hu1], by rw [hu1, hu2], ?_, by rw [hu1, hu2]; rfl, by rw [hu1, hu2]⟩
  rw [hu1, hu2]
  unfold removalsForPair createContactGroupMembershipRemoval
  simp [List.filter_append, hspec, List.filter_cons]

/-- Claim C4, witness for the amended theorem at a concrete input. -/
theorem unsubscribed_twice_idempotent_witness :
    emptyStore.removals.filter (removalKeyMatches exContact exGroup) = [] ∧
    ((handleUnsubscribedEvent noFaults exContact exGroup emptyStore).httpStatus = 200 ∧
     (handleUnsubscribedEvent noFaults exContact exGroup
       (handleUnsubscribedEvent noFaults exContact exGroup emptyStore).store).httpStatus = 200 ∧
     (removalsForPair
       (handleUnsubscribedEvent noFaults exContact exGroup
         (handleUnsubscribedEvent noFaults exContact exGroup emptyStore).store).store
       exContact exGroup).length = 1 ∧
     (handleUnsubscribedEvent noFaults exContact exGroup
       (handleUnsubscribedEvent noFaults exContact exGroup emptyStore).store).store.memberships =
       emptyStore.memberships ∧
     (handleUnsubscribedEvent noFaults exContact exGroup
       (handleUnsubscribedEvent noFaults exContact exGroup emptyStore).store).store =
       (handleUnsubscribedEvent noFaults exContact exGroup emptyStore).store) :=
  ⟨by decide, unsubscribed_twice_idempotent exContact exGroup emptyStore (by decide)⟩

/-- Claim C10: in the subscribed-event path the tombstone is deleted before
the membership is created; when a tombstone is found, its deletion succeeds,
and the membership creation then fails with an error other than
AlreadyExists, the handler responds 500 while the store has already lost the
tombstone — the 500 does not mean the store is unchanged. -/
theorem subscribed_create_failure_tombstone_already_deleted
    (contact : Contact) (group : ContactGroup) (s : Store)
    (rem : ContactGroupMembershipRemoval) (e : KErr)
    (hrem : getContactGroupMembershipRemoval s contact group = some rem)
    (he : e ≠ KErr.alreadyExists) :
    (handleSubscribedEvent ⟨none, none, some e, none⟩ contact group s).httpStatus = 500 ∧
    (handleSubscribedEvent ⟨none, none, some e, none⟩ contact group s).store =
      deleteContactGroupMembershipRemoval s rem ∧
    rem ∉ (handleSubscribedEvent ⟨none, none, some e, none⟩ contact group s).store.removals := by
  have hstep : handleSubscribedEvent ⟨none, none, some e, none⟩ contact group s =
      ⟨deleteContactGroupMembershipRemoval s rem, 500⟩ := by
    unfold handleSubscribedEvent
    cases e with
    | alreadyExists => exact absurd rfl he
    | notFound => simp only [hrem]
    | internalError m => simp only [hrem]
  refine ⟨by rw [hstep], by rw [hstep], ?_⟩
  rw [hstep]
  unfold deleteContactGroupMembershipRemoval
  intro hmem
  have hpred := (List.mem_filter.mp hmem).2
  simp at hpred

/-- Claim C10, witness at a concrete input. -/
theorem subscribed_create_failure_tombstone_already_deleted_witness :
    getContactGroupMembershipRemoval exRemovalStore exContact exGroup = some exRemoval ∧
    KErr.internalError "boom" ≠ KErr.alreadyExists ∧
    ((handleSubscribedEvent ⟨none, none, some (KErr.internalError "boom"), none⟩
        exContact exGroup exRemovalStore).httpStatus = 500 ∧
     (handleSubscribedEvent ⟨none, none, some (KErr.internalError "boom"), none⟩
        exContact exGroup exRemovalStore).store =
       deleteContactGroupMembershipRemoval exRemovalStore exRemoval ∧
     exRemoval ∉ (handleSubscribedEvent ⟨none, none, some (KErr.internalError "boom"), none⟩
        exContact exGroup exRemovalStore).store.removals) :=
  ⟨by decide, by decide,
   subscribed_create_failure_tombstone_already_deleted exContact exGroup exRemovalStore
     exRemoval (KErr.internalError "boom") (by decide) (by decide)⟩

/-! ## Supporting lemmas and claim theorems: webhook verification -/

theorem hasPrefixB_refl (l : List Nat) : hasPrefixB l l = true := by
  induction l with
  | nil => rfl
  | cons x xs ih => simp [hasPrefixB, ih]

theorem b64Char_gt_42 (n : Nat) : 42 < b64Char n := by
  unfold b64Char
  repeat' split
  all_goals omega

theorem base64Encode_mem_gt_42 : ∀ (bs : List Nat), ∀ x ∈ base64Encode bs, 42 < x
  | [] => by simp [base64Encode]
  | [a] => by
    intro x hx
    simp only [base64Encode, List.mem_cons, List.not_mem_nil, or_false] at hx
    rcases hx with h | h | h | h <;> subst h <;>
      first
      | exact b64Char_gt_42 _
      | omega
  | [a, b] => by
    intro x hx
    simp only [base64Encode, List.mem_cons, List.not_mem_nil, or_false] at hx
    rcases hx with h | h | h | h <;> subst h <;>
      first
      | exact b64Char_gt_42 _
      | omega
  | a :: b :: c :: rest => by
    intro x hx
    simp only [base64Encode, List.mem_cons] at hx
    rcases hx with h | h | h | h | h
    · subst h; exact b64Char_gt_42 _
    · subst h; exact b64Char_gt_42 _
    · subst h; exact b64Char_gt_42 _
    · subst h; exact b64Char_gt_42 _
    · exact base64Encode_mem_gt_42 rest x h

theorem splitOnByte_eq_self (b : Nat) (l : List Nat) (h : ∀ x ∈ l, x ≠ b) :
    splitOnByte b l = [l] := by
  induction l with
  | nil => rfl
  | cons x xs ih =>
    have hx : x ≠ b := h x (by simp)
    have ihh : splitOnByte b xs = [xs] := ih fun y hy => h y (by simp [hy])
    simp [splitOnByte, hx, ihh]

theorem containsSeq_comma_sig (sig : List Nat) :
    containsSeq (44 :: sig) (118 :: 49 :: 44 :: sig) = true := by
  simp [containsSeq, hasPrefixB, hasPrefixB_refl]

theorem verifyWebhook_ok_iff_contains
    (eventID timestamp webhookSignature body secret key : List Nat)
    (h1 : eventID ≠ []) (h2 : timestamp ≠ []) (h3 : webhookSignature ≠ [])
    (hk : secretKeyBytes secret = some key) :
    verifyWebhook eventID timestamp webhookSignature body secret = VerifyResult.ok ↔
      ((splitOnByte 32 webhookSignature).any fun tok =>
        containsSeq
          (44 :: base64Encode (hmacSha256 key (eventID ++ 46 :: timestamp ++ 46 :: body)))
          tok) = true := by
  unfold verifyWebhook
  unfold secretKeyBytes at hk
  rw [if_neg (by simp [h1, h2, h3])]
  cases hsp : splitOnByte 95 secret with
  | nil => rw [hsp] at hk; simp at hk
  | cons p0 rest =>
    cases rest with
    | nil => rw [hsp] at hk; simp at hk
    | cons p1 rest2 =>
      rw [hsp] at hk
      simp only [] at hk
      dsimp only
      rw [hk]
      dsimp only
      cases hany : (splitOnByte 32 webhookSignature).any
          (fun sig => containsSeq
            (44 :: base64Encode (hmacSha256 key (eventID ++ 46 :: timestamp ++ 46 :: body)))
            sig) with
      | true => simp [hany]
      | false => simp [hany]

theorem verifyWebhook_fresh_signature_accepts
    (eventID timestamp body secret key : List Nat)
    (h1 : eventID ≠ []) (h2 : timestamp ≠ [])
    (hk : secretKeyBytes secret = some key) :
    verifyWebhook eventID timestamp
      (118 :: 49 :: 44 ::
        base64Encode (hmacSha256 key (eventID ++ 46 :: timestamp ++ 46 :: body)))
      body secret = VerifyResult.ok := by
  have hnosp : ∀ x ∈ (118 :: 49 :: 44 ::
      base64Encode (hmacSha256 key (eventID ++ 46 :: timestamp ++ 46 :: body))), x ≠ 32 := by
    intro x hx
    simp only [List.mem_cons] at hx
    rcases hx with h | h | h | h
    · omega
    · omega
    · omega
    · have := base64Encode_mem_gt_42 _ x h
      omega
  have hsplit := splitOnByte_eq_self 32 _ hnosp
  rw [verifyWebhook_ok_iff_contains eventID timestamp _ body secret key h1 h2
    (by simp) hk]
  rw [hsplit]
  simp [containsSeq_comma_sig]

/-- Claim C2, counterexample: a concrete request whose signature header has
the single token v1,SIGNATUREA (the correct digest followed by a stray byte).
No token's digest suffix equals the correct base64 HMAC-SHA256, so the
claim's criterion rejects, yet `verifyWebhook` accepts: the code checks with
`strings.Contains`, which also matches in the middle of a token. -/
theorem verifyWebhook_accepts_nonexact_digest :
    verifyWebhook exEventID exTimestamp exPaddedHeader exBody exSecret = VerifyResult.ok ∧
    secretKeyBytes exSecret = some exKey ∧
    claimDigestSuffixAccepts exEventID exTimestamp exPaddedHeader exBody exKey = false := by
  decide

/-- Claim C2 (amended): for every request with non-empty event-id, timestamp
and signature headers and a well-formed, base64-decodable secret,
verification succeeds iff the signature header, split on spaces, contains a
token that CONTAINS AS A SUBSTRING (amended from: whose digest suffix equals
exactly) a comma followed by the base64-encoded HMAC-SHA256, keyed with the
decoded secret, of eventID.timestamp.body. -/
theorem verifyWebhook_iff_substring_match
    (eventID timestamp webhookSignature body secret key : List Nat)
    (h1 : eventID ≠ []) (h2 : timestamp ≠ []) (h3 : webhookSignature ≠ [])
    (hk : secretKeyBytes secret = some key) :
    verifyWebhook eventID timestamp webhookSignature body secret = VerifyResult.ok ↔
      claimSubstringAccepts eventID timestamp webhookSignature body key = true := by
  unfold claimSubstringAccepts
  dsimp only
  exact verifyWebhook_ok_iff_contains eventID timestamp webhookSignature body secret key
    h1 h2 h3 hk

/-- Claim C2, witness for the amended theorem: a correct freshly-computed
header at a concrete input verifies, and the amended criterion agrees. -/
theorem verifyWebhook_iff_substring_match_witness :
    exEventID ≠ [] ∧ exTimestamp ≠ [] ∧ exGoodHeader ≠ [] ∧
    secretKeyBytes exSecret = some exKey ∧
    verifyWebhook exEventID exTimestamp exGoodHeader exBody exSecret = VerifyResult.ok :=
  ⟨by decide, by decide, by decide, by decide,
   (verifyWebhook_iff_substring_match exEventID exTimestamp exGoodHeader exBody exSecret exKey
     (by decide) (by decide) (by decide) (by decide)).mpr (by decide)⟩

/-! ## Claim theorems: reconcilers and finalizer -/

theorem providerNameCount_singleton (p : ProviderStatus) (n : String) :
    providerNameCount [p] n ≤ 1 := by
  unfold providerNameCount
  cases h : p.name == n <;> simp [List.filter_cons, h]

/-- Claim C5: reconciling a Contact whose Ready condition is present with a
successful (Created or Updated) reason and whose observed generation equals
the current generation performs zero remote-provider calls (no UpsertContact
and no DeleteContact; the modelled path is the non-deleting one). -/
theorem converged_contact_reconcile_no_remote_calls
    (upsertResult : Option LoopsErr) (createNewsletterResult : Option KErr)
    (ngName ngNs : String) (contact : Contact) (rc : Condition)
    (hfind : findStatusCondition contact.status.conditions loopsContactReadyCondition =
      some rc)
    (hreason : rc.reason = loopsContactCreatedReason ∨
      rc.reason = loopsContactUpdatedReason)
    (hgen : rc.observedGeneration = contact.generation) :
    (contactReconcile upsertResult createNewsletterResult ngName ngNs contact).calls = [] := by
  have hnc : ¬(rc.reason = loopsContactNotCreatedReason) := by
    rcases hreason with h | h <;> rw [h] <;> decide
  have hconv : contactConvergeStatus upsertResult contact = ⟨[], contact.status, none⟩ := by
    unfold contactConvergeStatus
    rw [hfind]
    dsimp only
    rw [if_neg hnc, if_neg (by simp [hgen])]
  unfold contactReconcile
  rw [hconv]

/-- Claim C5, witness at a concrete converged contact. -/
theorem converged_contact_reconcile_no_remote_calls_witness :
    findStatusCondition exConvergedContact.status.conditions loopsContactReadyCondition =
      some ⟨loopsContactReadyCondition, conditionTrue, loopsContactCreatedReason,
        "Loops contact created on email provider", 3⟩ ∧
    (contactReconcile none none "ngroup" "default" exConvergedContact).calls = [] :=
  ⟨by decide,
   converged_contact_reconcile_no_remote_calls none none "ngroup" "default"
     exConvergedContact
     ⟨loopsContactReadyCondition, conditionTrue, loopsContactCreatedReason,
      "Loops contact created on email provider", 3⟩
     (by decide) (Or.inl (by decide)) (by decide)⟩

/-- Claim C6: every status produced by reconciling a Contact keeps at most
one Ready-typed condition entry and at most one provider entry per name
(stated as preservation: the input status satisfies the invariant, which
holds for every status this reconciler itself ever writes), and after a
successful creation the providers list is exactly [{name Loops, id UID}]. -/
theorem contact_reconcile_status_invariants
    (upsertResult : Option LoopsErr) (createNewsletterResult : Option KErr)
    (ngName ngNs : String) (contact : Contact)
    (hc : condTypeCount contact.status.conditions loopsContactReadyCondition ≤ 1)
    (hp : ∀ n, providerNameCount contact.status.providers n ≤ 1) :
    condTypeCount
      (contactReconcile upsertResult createNewsletterResult ngName ngNs contact).status.conditions
      loopsContactReadyCondition ≤ 1 ∧
    (∀ n, providerNameCount
      (contactReconcile upsertResult createNewsletterResult ngName ngNs contact).status.providers
      n ≤ 1) ∧
    (contactIsCreationState contact = true → upsertResult = none →
      (contactReconcile upsertResult createNewsletterResult ngName ngNs contact).status.providers =
        [⟨"Loops", contact.uid⟩]) := by
  have hcount1 : condTypeCount (contactConvergeStatus upsertResult contact).status.conditions
      loopsContactReadyCondition ≤ 1 := by
    rcases contactConvergeStatus_conditions_shape upsertResult contact with h | ⟨c, hct, h⟩
    · rw [h]; exact hc
    · rw [h]; exact condTypeCount_set_le_one _ _ _ hc
  have hprov1 : ∀ n, providerNameCount (contactConvergeStatus upsertResult contact).status.providers
      n ≤ 1 := by
    intro n
    rcases contactConvergeStatus_providers_shape upsertResult contact with h | h
    · rw [h]; exact hp n
    · rw [h]; exact providerNameCount_singleton _ n
  unfold contactReconcile
  dsimp only
  cases he : (contactConvergeStatus upsertResult contact).earlyErr with
  | some msg =>
    refine ⟨hc, hp, ?_⟩
    intro hcr hu
    subst hu
    exact absurd he (by rw [(contactConvergeStatus_creation_success contact hcr).2]; simp)
  | none =>
    dsimp only
    by_cases hnl : isNewsletterContact contact = true
    · rw [if_pos hnl]
      refine ⟨?_, ?_, ?_⟩
      · rcases addToNewsLetterList_conditions_shape createNewsletterResult ngName ngNs contact
          (contactConvergeStatus upsertResult contact).status with h | ⟨c, hct, h⟩
        · rw [h]; exact hcount1
        · rw [h]; exact condTypeCount_set_le_one _ _ _ hcount1
      · intro n
        rw [addToNewsLetterList_providers]
        exact hprov1 n
      · intro hcr hu
        subst hu
        rw [addToNewsLetterList_providers]
        exact (contactConvergeStatus_creation_success contact hcr).1
    · rw [if_neg hnl]
      refine ⟨hcount1, hprov1, ?_⟩
      intro hcr hu
      subst hu
      exact (contactConvergeStatus_creation_success contact hcr).1

/-- Claim C6, witness at a concrete contact with empty status. -/
theorem contact_reconcile_status_invariants_witness :
    condTypeCount
      (contactReconcile none none "ngroup" "default" exContact).status.conditions
      loopsContactReadyCondition ≤ 1 ∧
    providerNameCount
      (contactReconcile none none "ngroup" "default" exContact).status.providers
      "Loops" ≤ 1 ∧
    (contactReconcile none none "ngroup" "default" exContact).status.providers =
      [⟨"Loops", "uid-1"⟩] :=
  have T := contact_reconcile_status_invariants none none "ngroup" "default" exContact
    (by decide) (fun n => by simp [exContact, providerNameCount])
  ⟨T.1, T.2.1 "Loops", T.2.2 (by decide) rfl⟩


theorem contactReconcile_not_newsletter (u : Option LoopsErr) (cr : Option KErr)
    (ngName ngNs : String) (contact : Contact)
    (hnl : isNewsletterContact contact = false) :
    contactReconcile u cr ngName ngNs contact =
      match (contactConvergeStatus u contact).earlyErr with
      | some msg =>
        ⟨(contactConvergeStatus u contact).calls, [], contact.status, some msg⟩
      | none =>
        ⟨(contactConvergeStatus u contact).calls,
         patchStatusIfChanged contact.status (contactConvergeStatus u contact).status
           StoreOp.patchContactStatus,
         (contactConvergeStatus u contact).status, none⟩ := by
  unfold contactReconcile
  dsimp only
  cases he : (contactConvergeStatus u contact).earlyErr with
  | some msg => rfl
  | none =>
    rw [if_neg (by simp [hnl])]
    simp

/-- Claim C7: bad-request handling is asymmetric.  When the remote upsert
fails with bad-request during Contact creation, the Contact reconciler
records a NotCreated/False Ready condition and escalates no error (shown
here for contacts outside the orthogonal newsletter side effect); when
AddToMailingList fails for ANY reason, bad-request included, the membership
reconciler records a NotCreated/False Ready condition and escalates the
error to the control loop. -/
theorem bad_request_asymmetry :
    (∀ (e : LoopsErr) (createNewsletterResult : Option KErr) (ngName ngNs : String)
       (contact : Contact),
      IsBadRequest e = true →
      contactIsCreationState contact = true →
      isNewsletterContact contact = false →
      (contactReconcile (some e) createNewsletterResult ngName ngNs contact).err = none ∧
      ∃ c, findStatusCondition
          (contactReconcile (some e) createNewsletterResult ngName ngNs contact).status.conditions
          loopsContactReadyCondition = some c ∧
        c.reason = loopsContactNotCreatedReason ∧ c.status = conditionFalse) ∧
    (∀ (e : LoopsErr) (cgm : ContactGroupMembership) (contact : Contact)
       (group : ContactGroup) (listID : String),
      getMailingListId group = some listID →
      cgmIsCreationState cgm = true →
      (contactGroupMembershipReconcile (some e) cgm contact group).err.isSome = true ∧
      ∃ c, findStatusCondition
          (contactGroupMembershipReconcile (some e) cgm contact group).status.conditions
          loopsContactGroupMembershipReadyCondition = some c ∧
        c.reason = loopsContactGroupMembershipNotCreatedReason ∧
        c.status = conditionFalse) := by
  constructor
  · intro e createNewsletterResult ngName ngNs contact hb hcr hnl
    have hconv : contactConvergeStatus (some e) contact =
        ⟨[upsertCallOf contact],
         ⟨setStatusCondition contact.status.conditions
            ⟨loopsContactReadyCondition, conditionFalse, loopsContactNotCreatedReason,
             "Loops contact not created on email provider: failed to find Loops contact: " ++
               e.message,
             contact.generation⟩,
          contact.status.providers⟩,
         none⟩ := by
      unfold contactIsCreationState at hcr
      unfold contactConvergeStatus
      cases hf : findStatusCondition contact.status.conditions loopsContactReadyCondition with
      | none => simp [hb]
      | some rc =>
        rw [hf] at hcr
        simp only [beq_iff_eq] at hcr
        dsimp only
        rw [if_pos hcr]
        simp [hb]
    rw [contactReconcile_not_newsletter (some e) createNewsletterResult ngName ngNs
      contact hnl, hconv]
    dsimp only
    exact ⟨rfl, _, findStatusCondition_set_self contact.status.conditions _, rfl, rfl⟩
  · intro e cgm contact group listID hml hcr
    have hconv : cgmConvergeStatus (some e) cgm contact group =
        ([.addToMailingList contact.uid listID],
         ⟨setStatusCondition cgm.status.conditions
            ⟨loopsContactGroupMembershipReadyCondition, conditionFalse,
             loopsContactGroupMembershipNotCreatedReason,
             "Loops contact group membership not created on email provider: " ++
               ("failed to add Loops contact to mailing list: " ++ e.message),
             cgm.generation⟩,
          cgm.status.providers⟩,
         some ("failed to add Loops contact to mailing list: " ++ e.message)) := by
      unfold cgmConvergeStatus
      dsimp only
      rw [if_pos hcr, hml]
    have herr : (contactGroupMembershipReconcile (some e) cgm contact group).err =
        (cgmConvergeStatus (some e) cgm contact group).2.2 := rfl
    have hst : (contactGroupMembershipReconcile (some e) cgm contact group).status =
        (cgmConvergeStatus (some e) cgm contact group).2.1 := rfl
    refine ⟨?_, ?_⟩
    · rw [herr, hconv]
      rfl
    · rw [hst, hconv]
      exact ⟨_, findStatusCondition_set_self cgm.status.conditions _, rfl, rfl⟩

/-- Claim C7, witness: both halves at a concrete 400 error. -/
theorem bad_request_asymmetry_witness :
    IsBadRequest (LoopsErr.apiErr 400 "bad") = true ∧
    contactIsCreationState exContact = true ∧
    isNewsletterContact exContact = false ∧
    (contactReconcile (some (LoopsErr.apiErr 400 "bad")) none "ngroup" "default"
      exContact).err = none ∧
    getMailingListId exGroup = some "list-1" ∧
    cgmIsCreationState exCgm = true ∧
    (contactGroupMembershipReconcile (some (LoopsErr.apiErr 400 "bad")) exCgm exContact
      exGroup).err.isSome = true :=
  have T := bad_request_asymmetry
  ⟨by decide, by decide, by decide,
   (T.1 (LoopsErr.apiErr 400 "bad") none "ngroup" "default" exContact (by decide)
     (by decide) (by decide)).1,
   by decide, by decide,
   (T.2 (LoopsErr.apiErr 400 "bad") exCgm exContact exGroup "list-1" (by decide)
     (by decide)).1⟩

/-- Claim C8: the Contact finalizer always issues the remote DeleteContact
for the contact's UID; success and not-found let finalization complete,
while any other failure aborts finalization with an error. -/
theorem contact_finalizer_delete_semantics (deleteResult : Option LoopsErr)
    (contact : Contact) :
    (loopsContactFinalizerFinalize deleteResult contact).calls =
      [RemoteCall.deleteContact contact.uid] ∧
    (deleteResult = none → (loopsContactFinalizerFinalize deleteResult contact).err = none) ∧
    (∀ e, deleteResult = some e → IsNotFound e = true →
      (loopsContactFinalizerFinalize deleteResult contact).err = none) ∧
    (∀ e, deleteResult = some e → IsNotFound e = false →
      (loopsContactFinalizerFinalize deleteResult contact).err.isSome = true) := by
  cases deleteResult with
  | none =>
    have h : loopsContactFinalizerFinalize none contact =
        ⟨[RemoteCall.deleteContact contact.uid], none⟩ := rfl
    rw [h]
    exact ⟨rfl, fun _ => rfl, fun e he _ => Option.noConfusion he,
      fun e he _ => Option.noConfusion he⟩
  | some e =>
    by_cases hnf : IsNotFound e = true
    · have h : loopsContactFinalizerFinalize (some e) contact =
          ⟨[RemoteCall.deleteContact contact.uid], none⟩ := by
        unfold loopsContactFinalizerFinalize loopsContactFinalizerDeleteContact
        dsimp only
        rw [if_pos hnf]
      rw [h]
      refine ⟨rfl, fun _ => rfl, fun e' he' hn => rfl, ?_⟩
      intro e' he' hn
      rw [Option.some_inj] at he'
      subst he'
      rw [hnf] at hn
      cases hn
    · have h : loopsContactFinalizerFinalize (some e) contact =
          ⟨[RemoteCall.deleteContact contact.uid],
           some ("failed to delete Loops contact: " ++
             ("failed to delete Loops contact: " ++ e.message))⟩ := by
        unfold loopsContactFinalizerFinalize loopsContactFinalizerDeleteContact
        dsimp only
        rw [if_neg hnf]
      rw [h]
      refine ⟨rfl, fun hh => Option.noConfusion hh, ?_, fun e' he' hn => rfl⟩
      intro e' he' hn
      rw [Option.some_inj] at he'
      subst he'
      exact absurd hn hnf

/-- Claim C8, witness covering success, not-found and server-error. -/
theorem contact_finalizer_delete_semantics_witness :
    (loopsContactFinalizerFinalize none exContact).calls =
      [RemoteCall.deleteContact "uid-1"] ∧
    (loopsContactFinalizerFinalize none exContact).err = none ∧
    (loopsContactFinalizerFinalize (some (LoopsErr.apiErr 404 "missing")) exContact).err =
      none ∧
    (loopsContactFinalizerFinalize (some (LoopsErr.apiErr 500 "boom")) exContact).err.isSome =
      true :=
  ⟨(contact_finalizer_delete_semantics none exContact).1,
   (contact_finalizer_delete_semantics none exContact).2.1 rfl,
   (contact_finalizer_delete_semantics (some (LoopsErr.apiErr 404 "missing")) exContact).2.2.1
     (LoopsErr.apiErr 404 "missing") rfl (by decide),
   (contact_finalizer_delete_semantics (some (LoopsErr.apiErr 500 "boom")) exContact).2.2.2
     (LoopsErr.apiErr 500 "boom") rfl (by decide)⟩

/-- Claim C9: for both reconcilers, the store operations contain a status
patch iff the resulting status differs structurally from the status read at
the start of reconciliation, and the patch writes exactly that status. -/
theorem status_patched_iff_changed :
    (∀ (u : Option LoopsErr) (cr : Option KErr) (ngName ngNs : String)
       (contact : Contact),
      (contactReconcile u cr ngName ngNs contact).storeOps.filter StoreOp.isStatusPatch =
        (if (contactReconcile u cr ngName ngNs contact).status = contact.status then []
         else [StoreOp.patchContactStatus
           (contactReconcile u cr ngName ngNs contact).status])) ∧
    (∀ (a : Option LoopsErr) (cgm : ContactGroupMembership) (contact : Contact)
       (group : ContactGroup),
      (contactGroupMembershipReconcile a cgm contact group).storeOps.filter
          StoreOp.isStatusPatch =
        (if (contactGroupMembershipReconcile a cgm contact group).status = cgm.status
         then []
         else [StoreOp.patchMembershipStatus
           (contactGroupMembershipReconcile a cgm contact group).status])) := by
  constructor
  · intro u cr ngName ngNs contact
    unfold contactReconcile
    dsimp only
    cases he : (contactConvergeStatus u contact).earlyErr with
    | some msg => simp
    | none =>
      dsimp only
      have hA : ∀ (x : ContactStatus × List StoreOp × Bool),
          x.2.1.filter StoreOp.isStatusPatch = [] →
          (x.2.1 ++ patchStatusIfChanged contact.status x.1
            StoreOp.patchContactStatus).filter StoreOp.isStatusPatch =
            (if x.1 = contact.status then []
             else [StoreOp.patchContactStatus x.1]) := by
        intro x hx
        rw [List.filter_append, hx, List.nil_append]
        unfold patchStatusIfChanged
        by_cases hch : x.1 = contact.status
        · rw [if_pos hch.symm, if_pos hch]
          rfl
        · rw [if_neg (fun hh => hch hh.symm), if_neg hch]
          simp [StoreOp.isStatusPatch]
      apply hA
      by_cases hnl : isNewsletterContact contact = true
      · rw [if_pos hnl]
        exact addToNewsLetterList_no_status_patch_ops cr ngName ngNs contact _
      · rw [if_neg hnl]
        rfl
  · intro a cgm contact group
    have hso : (contactGroupMembershipReconcile a cgm contact group).storeOps =
        patchStatusIfChanged cgm.status
          (contactGroupMembershipReconcile a cgm contact group).status
          StoreOp.patchMembershipStatus := rfl
    rw [hso]
    unfold patchStatusIfChanged
    by_cases hch : (contactGroupMembershipReconcile a cgm contact group).status =
        cgm.status
    · rw [if_pos hch.symm, if_pos hch]
      rfl
    · rw [if_neg (fun hh => hch hh.symm), if_neg hch]
      simp [StoreOp.isStatusPatch]
